import Mathlib

/-!
Verification of the blocks-script annotation layer.

The repository has two source files:

* `system_lib/ScriptBase.js` — the `ScriptBase` adapter class, which forwards
  property registration, change notification, indexed properties and event
  unsubscription to a host-supplied facade object (`this.__scriptFacade`), and
  normalizes array-like values (`makeJSArray`).
* a metadata/decorator module exporting `driver`, `min`, `max`, `resource`,
  etc., each of which writes a string-keyed metadata entry against a target
  class or target/propertyKey pair via `Reflect.defineMetadata`.

The embedding below is trace-based: the observable behavior of `ScriptBase`
methods is the ordered list of calls they make (facade calls, property
definitions on `this`, accessor invocations), with the host facade's returned
values and exceptions supplied as parameters, since the host is outside the
repository.  The metadata decorators are modelled against an explicit
append-only metadata store with last-write-wins lookup, mirroring the
reflect-metadata key/target/propertyKey addressing.
-/

namespace Blocks

/-- The `options` object passed to `ScriptBase.property`.  `ScriptBase` reads
only its `readOnly` flag (`options && options.readOnly`); all other fields are
forwarded opaquely to the facade and play no role here.  JavaScript truthiness
of `options.readOnly` is modelled by a `Bool`. -/
structure Opts where
  readOnly : Bool

/-- `options && options.readOnly` from the source: the whole `options`
argument may be absent (`undefined`, falsy), modelled as `none`. -/
def readOnlyRequested : Option Opts → Bool
  | none => false
  | some o => o.readOnly

/-- A getter/setter accessor function `gsFunc`: called with no argument
(`none`) it returns the current value, called with an argument (`some v`) it
performs the write and returns the resulting value.  It may be stateful, so it
threads a state of type `σ`. -/
abbrev GS (α σ : Type) := Option α → σ → α × σ

/-- One observable call made by a `ScriptBase` method body: a call on the
host-supplied facade `this.__scriptFacade`, a property definition on `this`
(`Object.defineProperty`), or an invocation of the accessor `gsFunc`. -/
inductive FCall (α σ L : Type) where
  | facadeProperty (name : String) (options : Option Opts) (gs : GS α σ)
  | facadeChanged (name : String)
  | facadeIndexedProperty (name : String) (itemType : String)
  | facadeUnsubscribe (event : String) (listener : L)
  | defineProp (name : String) (hasSetter : Bool)
  | gsFunc (arg : Option α)

/-- What the host facade returns to `ScriptBase`.  The facade is host code,
outside the repository, so its results are parameters of the model:
`propertyResult` is the outcome of `__scriptFacade.property` (which may raise
an exception of type `ε`), `indexedPropertyResult` the value returned by
`__scriptFacade.indexedProperty`. -/
structure FacadeBehavior (β ε : Type) where
  propertyResult : String → Option Opts → Except ε Unit
  indexedPropertyResult : String → String → β

/-- Body of the setter closure installed by `ScriptBase.property` for a
non-read-only property:

```js
set: function (value) {
    var oldValue = gsFunc();
    if (oldValue !== gsFunc(value))
        this.__scriptFacade.changed(name);
}
```

It returns the accessor state after the two `gsFunc` invocations together with
the ordered list of calls made. -/
def setterBody [DecidableEq α] (gs : GS α σ) (name : String) (value : α) (s : σ) :
    σ × List (FCall α σ L) :=
  let r1 := gs none s
  let oldValue := r1.1
  let r2 := gs (some value) r1.2
  (r2.2,
    [FCall.gsFunc none, FCall.gsFunc (some value)] ++
      (if oldValue ≠ r2.1 then [FCall.facadeChanged name] else []))

/-- Body of the getter closure installed by `ScriptBase.property`:
`get: function () { return gsFunc(); }`. -/
def getterBody (gs : GS α σ) (s : σ) : (α × σ) × List (FCall α σ L) :=
  (gs none s, [FCall.gsFunc none])

/-- A property shim installed on the instance by `Object.defineProperty`: a
getter, and optionally a setter (absent for read-only properties). -/
structure PropShim (α σ L : Type) where
  get : σ → (α × σ) × List (FCall α σ L)
  set : Option (α → σ → σ × List (FCall α σ L))

/-- Assigning to a defined property: runs the installed setter; when no setter
was installed the assignment performs no call at all and leaves the accessor
state unchanged. -/
def PropShim.assign (p : PropShim α σ L) (v : α) (s : σ) : σ × List (FCall α σ L) :=
  match p.set with
  | none => (s, [])
  | some f => f v s

/-- The `this` object of a `ScriptBase` instance, as observable from this
repository: the properties defined on it, in definition order. -/
structure ScriptInstance (α σ L : Type) where
  props : List (String × PropShim α σ L)

/-- Result of one call to `ScriptBase.property`: the outcome (normal return or
propagated exception), the instance afterwards, and the ordered list of calls
the method body made. -/
structure PropCallResult (α σ L ε : Type) where
  outcome : Except ε Unit
  inst : ScriptInstance α σ L
  calls : List (FCall α σ L)

/-- `ScriptBase.prototype.property(name, options, gsFunc)`:

```js
this.__scriptFacade.property(name, options, gsFunc);
if (options && options.readOnly) {
    Object.defineProperty(this, name, { get: ... });
} else {
    Object.defineProperty(this, name, { get: ..., set: ... });
}
```

The facade call comes first; if it raises, the exception propagates and no
property is defined.  Otherwise a getter-only or getter/setter shim is
installed depending on `options.readOnly`. -/
def propertyMethod [DecidableEq α] (beh : FacadeBehavior β ε) (inst : ScriptInstance α σ L)
    (name : String) (options : Option Opts) (gs : GS α σ) : PropCallResult α σ L ε :=
  match beh.propertyResult name options with
  | Except.error e =>
      { outcome := Except.error e
        inst := inst
        calls := [FCall.facadeProperty name options gs] }
  | Except.ok _ =>
      if readOnlyRequested options then
        { outcome := Except.ok ()
          inst := { props := inst.props ++ [(name, { get := getterBody gs, set := none })] }
          calls := [FCall.facadeProperty name options gs, FCall.defineProp name false] }
      else
        { outcome := Except.ok ()
          inst := { props := inst.props ++
              [(name, { get := getterBody gs, set := some (setterBody gs name) })] }
          calls := [FCall.facadeProperty name options gs, FCall.defineProp name true] }

/-- `ScriptBase.prototype.changed(propName)`:
`this.__scriptFacade.changed(propName);` (no return value). -/
def changedMethod (propName : String) : List (FCall α σ L) :=
  [FCall.facadeChanged propName]

/-- `ScriptBase.prototype.indexedProperty(name, itemType)`:
`return this.__scriptFacade.indexedProperty(name, itemType);`. -/
def indexedPropertyMethod (beh : FacadeBehavior β ε) (name itemType : String) :
    β × List (FCall α σ L) :=
  (beh.indexedPropertyResult name itemType, [FCall.facadeIndexedProperty name itemType])

/-- `ScriptBase.prototype.unsubscribe(event, listener)`:
`this.__scriptFacade.unsubscribe(event, listener);` (no return value). -/
def unsubscribeMethod (event : String) (listener : L) : List (FCall α σ L) :=
  [FCall.facadeUnsubscribe event listener]

/-- Specification-side definition, from the spec's words: what calling
`__scriptFacade.changed(propName)` directly looks like (one facade call,
nothing else). -/
def facadeChangedDirect (propName : String) : List (FCall α σ L) :=
  [FCall.facadeChanged propName]

/-- Specification-side definition: calling `__scriptFacade.indexedProperty`
directly returns exactly the facade's result, making that one facade call. -/
def facadeIndexedPropertyDirect (beh : FacadeBehavior β ε) (name itemType : String) :
    β × List (FCall α σ L) :=
  (beh.indexedPropertyResult name itemType, [FCall.facadeIndexedProperty name itemType])

/-- Specification-side definition: calling `__scriptFacade.unsubscribe`
directly with the same arguments, no other effect. -/
def facadeUnsubscribeDirect (event : String) (listener : L) : List (FCall α σ L) :=
  [FCall.facadeUnsubscribe event listener]

/-- A JavaScript value that `makeJSArray` may receive: either a true native
array (`Array.isArray` holds) or a mere array-like object, with a numeric
`length` and elements at indices `0 .. length-1`. -/
inductive JSArr (α : Type) where
  | native : List α → JSArr α
  | arrayLike : Nat → (Nat → α) → JSArr α

/-- `Array.isArray(arr)`. -/
def JSArr.isArray : JSArr α → Bool
  | .native _ => true
  | .arrayLike _ _ => false

/-- The copy loop of `makeJSArray`:
`for (var i = 0; i < length; ++i) result.push(arr[i]);`
over an array-like with element function `elem`, starting at index `i` with
accumulated result `result`. -/
def copyLoop (elem : Nat → α) (length i : Nat) (result : List α) : List α :=
  if i < length then copyLoop elem length (i + 1) (result ++ [elem i]) else result
termination_by length - i

/-- `ScriptBase.prototype.makeJSArray(arr)`:

```js
if (Array.isArray(arr))
    return arr;
var result = [];
var length = arr.length;
for (var i = 0; i < length; ++i)
    result.push(arr[i]);
return result;
```
-/
def makeJSArray : JSArr α → JSArr α
  | .native l => .native l
  | .arrayLike length elem => .native (copyLoop elem length 0 [])

/-- The elements of a JavaScript array or array-like, in index order. -/
def JSArr.elems : JSArr α → List α
  | .native l => l
  | .arrayLike length elem => (List.range length).map elem

/-- The TypeScript union `'NetworkTCP'|'NetworkUDP'` accepted by `driver`. -/
inductive BaseDriverType where
  | NetworkTCP
  | NetworkUDP

/-- The string a `BaseDriverType` stands for. -/
def BaseDriverType.str : BaseDriverType → String
  | .NetworkTCP => "NetworkTCP"
  | .NetworkUDP => "NetworkUDP"

/-- The `DriverInfo` interface attached under the `pixi:driver` key:
`{ info: any; paramTypes: string[] }`.  The opaque blob type is `μ`. -/
structure DriverInfo (μ : Type) where
  info : μ
  paramTypes : List String

/-- The TypeScript union of valid role identifiers. -/
inductive RoleRequired where
  | Admin
  | Manager
  | Creator
  | Editor
  | Contributor
  | Staff
  | Spot

/-- The string a role identifier stands for. -/
def RoleRequired.str : RoleRequired → String
  | .Admin => "Admin"
  | .Manager => "Manager"
  | .Creator => "Creator"
  | .Editor => "Editor"
  | .Contributor => "Contributor"
  | .Staff => "Staff"
  | .Spot => "Spot"

/-- The TypeScript union `'GET'|'POST'` of valid `@resource` HTTP methods. -/
inductive ResourceVerb where
  | GET
  | POST

/-- The string a resource verb stands for. -/
def ResourceVerb.str : ResourceVerb → String
  | .GET => "GET"
  | .POST => "POST"

/-- A metadata value written by one of the decorators modelled here: the
`pixi:driver` info object, a numeric bound (`pixi:min` / `pixi:max`, number
type `ν`), or the `pixi:resource` info object `{ auth, verb }`. -/
inductive MetaValue (μ ν : Type) where
  | driverInfo (i : DriverInfo μ)
  | num (n : ν)
  | resourceInfo (auth : String) (verb : String)

/-- One reflect-metadata entry: a string key, a target, an optional property
key (absent for class-level metadata), and the stored value. -/
structure MetaEntry (τ μ ν : Type) where
  key : String
  target : τ
  propertyKey : Option String
  value : MetaValue μ ν

/-- The reflect-metadata store, as this repository observes it: the sequence
of `Reflect.defineMetadata` writes, in order. -/
structure MetaStore (τ μ ν : Type) where
  entries : List (MetaEntry τ μ ν)

/-- `Reflect.defineMetadata(key, value, target)` (propertyKey `none`) or
`Reflect.defineMetadata(key, value, target, propertyKey)`: appends one write
to the store. -/
def defineMetadata (key : String) (value : MetaValue μ ν) (target : τ)
    (propertyKey : Option String) (st : MetaStore τ μ ν) : MetaStore τ μ ν :=
  { entries := st.entries ++
      [{ key := key, target := target, propertyKey := propertyKey, value := value }] }

/-- Whether an entry is addressed by the given key, target and property key. -/
def entryMatches [DecidableEq τ] (e : MetaEntry τ μ ν) (key : String) (target : τ)
    (propertyKey : Option String) : Bool :=
  decide (e.key = key ∧ e.target = target ∧ e.propertyKey = propertyKey)

/-- `Reflect.getOwnMetadata(key, target[, propertyKey])`: the most recent
value written at that address, if any (last write wins). -/
def getOwnMetadata [DecidableEq τ] (key : String) (target : τ) (propertyKey : Option String)
    (st : MetaStore τ μ ν) : Option (MetaValue μ ν) :=
  (st.entries.reverse.find? (fun e => entryMatches e key target propertyKey)).map
    (fun e => e.value)

/-- The `driver` decorator:

```ts
const info: DriverInfo = { paramTypes: [baseDriverType], info: typeSpecificMeta };
return function(target: any): void {
    return Reflect.defineMetadata("pixi:driver", info, target);
}
```
-/
def driver (baseDriverType : BaseDriverType) (typeSpecificMeta : μ) :
    τ → MetaStore τ μ ν → MetaStore τ μ ν :=
  let info : DriverInfo μ := { paramTypes := [baseDriverType.str], info := typeSpecificMeta }
  fun target st => defineMetadata "pixi:driver" (MetaValue.driverInfo info) target none st

/-- The `min` decorator:
`Reflect.defineMetadata("pixi:min", min, target, propertyKey)`. -/
def min (m : ν) : τ → String → MetaStore τ μ ν → MetaStore τ μ ν :=
  fun target propertyKey st =>
    defineMetadata "pixi:min" (MetaValue.num m) target (some propertyKey) st

/-- The `max` decorator:
`Reflect.defineMetadata("pixi:max", max, target, propertyKey)`. -/
def max (m : ν) : τ → String → MetaStore τ μ ν → MetaStore τ μ ν :=
  fun target propertyKey st =>
    defineMetadata "pixi:max" (MetaValue.num m) target (some propertyKey) st

/-- The `resource` decorator:

```ts
const info = { auth: roleRequired || '', verb: verb || 'POST' };
return Reflect.defineMetadata("pixi:resource", info, target, propertyKey);
```

The optional arguments are `Option`; `x || dflt` on an absent argument is the
default. -/
def resource (roleRequired : Option RoleRequired) (verb : Option ResourceVerb) :
    τ → String → MetaStore τ μ ν → MetaStore τ μ ν :=
  fun target propertyKey st =>
    defineMetadata "pixi:resource"
      (MetaValue.resourceInfo
        (match roleRequired with
         | none => ""
         | some r => r.str)
        (match verb with
         | none => "POST"
         | some v => v.str))
      target (some propertyKey) st

/-- The copy loop accumulates exactly the elements at indices `i .. length-1`
after the accumulator. -/
theorem copyLoop_eq (elem : Nat → α) (length i : Nat) (result : List α) :
    copyLoop elem length i result = result ++ (List.range' i (length - i)).map elem := by
  unfold copyLoop
  split
  · next h =>
    rw [copyLoop_eq elem length (i + 1) (result ++ [elem i])]
    have hlen : length - i = (length - (i + 1)) + 1 := by omega
    rw [hlen, List.range'_succ]
    simp
  · next h =>
    have hlen : length - i = 0 := by omega
    simp [hlen]
termination_by length - i

/-- Claim C2: for every array-like input, `makeJSArray` returns a true native
array containing the same elements in the same order as the input. -/
theorem makeJSArray_returns_native_with_same_elems (arr : Blocks.JSArr α) :
    (Blocks.makeJSArray arr).isArray = true ∧
      (Blocks.makeJSArray arr).elems = arr.elems := by
  cases arr with
  | native l => exact ⟨rfl, rfl⟩
  | arrayLike length elem =>
    refine ⟨rfl, ?_⟩
    show copyLoop elem length 0 [] = (List.range length).map elem
    rw [copyLoop_eq, List.range_eq_range']
    simp

/-- Claim C3: `makeJSArray` returns a true-array input unchanged (the very
same container), and is therefore idempotent on every array-like input. -/
theorem makeJSArray_identity_and_idempotent :
    (∀ (l : List α), Blocks.makeJSArray (Blocks.JSArr.native l) = Blocks.JSArr.native l) ∧
      ∀ (arr : Blocks.JSArr α), Blocks.makeJSArray (Blocks.makeJSArray arr) =
        Blocks.makeJSArray arr := by
  refine ⟨fun l => rfl, fun arr => ?_⟩
  cases arr with
  | native l => rfl
  | arrayLike length elem => rfl

/-- Claim C5: `indexedProperty`, `changed` and `unsubscribe` are
observationally equal to calling the identically named facade method directly
with the same arguments: `indexedProperty` returns exactly the facade's
result, and all three make that one facade call and nothing else. -/
theorem passthroughs_equal_direct_facade_calls
    (beh : Blocks.FacadeBehavior β ε) (name itemType propName event : String) (listener : L) :
    Blocks.indexedPropertyMethod (α := α) (σ := σ) (L := L) beh name itemType =
        Blocks.facadeIndexedPropertyDirect beh name itemType ∧
      Blocks.changedMethod (α := α) (σ := σ) (L := L) propName =
        Blocks.facadeChangedDirect propName ∧
      Blocks.unsubscribeMethod (α := α) (σ := σ) event listener =
        Blocks.facadeUnsubscribeDirect event listener :=
  ⟨rfl, rfl, rfl⟩

/-- Looking up the address just written finds the written value. -/
theorem getOwnMetadata_defineMetadata_self [DecidableEq τ] (key : String)
    (value : Blocks.MetaValue μ ν) (target : τ) (propertyKey : Option String)
    (st : Blocks.MetaStore τ μ ν) :
    Blocks.getOwnMetadata key target propertyKey
        (Blocks.defineMetadata key value target propertyKey st) = some value := by
  simp [Blocks.getOwnMetadata, Blocks.defineMetadata, Blocks.entryMatches]

/-- A write leaves every other address unchanged. -/
theorem getOwnMetadata_defineMetadata_other [DecidableEq τ] (key : String)
    (value : Blocks.MetaValue μ ν) (target : τ) (propertyKey : Option String)
    (k : String) (t : τ) (p : Option String) (st : Blocks.MetaStore τ μ ν)
    (h : ¬(k = key ∧ t = target ∧ p = propertyKey)) :
    Blocks.getOwnMetadata k t p (Blocks.defineMetadata key value target propertyKey st) =
      Blocks.getOwnMetadata k t p st := by
  have hm : Blocks.entryMatches
      { key := key, target := target, propertyKey := propertyKey, value := value } k t p
        = false := by
    simp only [Blocks.entryMatches, decide_eq_false_iff_not]
    intro hc
    exact h ⟨hc.1.symm, hc.2.1.symm, hc.2.2.symm⟩
  simp [Blocks.getOwnMetadata, Blocks.defineMetadata, List.find?_cons_of_neg, hm]

/-- Claim C6: the decorator produced by `driver(baseDriverType, meta)` records
under the `pixi:driver` key an info object whose `paramTypes` is the
one-element list holding the base driver type and whose `info` is the opaque
blob, untransformed. -/
theorem driver_records_paramTypes_and_info [DecidableEq τ]
    (bdt : Blocks.BaseDriverType) (m : μ) (target : τ) (st : Blocks.MetaStore τ μ ν) :
    Blocks.getOwnMetadata "pixi:driver" target none (Blocks.driver bdt m target st) =
      some (Blocks.MetaValue.driverInfo { paramTypes := [bdt.str], info := m }) :=
  getOwnMetadata_defineMetadata_self "pixi:driver"
    (Blocks.MetaValue.driverInfo { paramTypes := [bdt.str], info := m }) target none st

/-- Claim C7: `min(n)` and `max(n)` each append exactly one write, of the
`pixi:min` / `pixi:max` key with the value `n` untransformed against the
given target and property key; the lookup at that address yields `n`, and the
lookup at every other address is unchanged. -/
theorem min_max_record_only_their_key [DecidableEq τ] (n : ν) (target : τ)
    (propertyKey : String) (st : Blocks.MetaStore τ μ ν) :
    (Blocks.min n target propertyKey st).entries = st.entries ++
        [{ key := "pixi:min", target := target, propertyKey := some propertyKey,
           value := Blocks.MetaValue.num n }] ∧
      (Blocks.max n target propertyKey st).entries = st.entries ++
        [{ key := "pixi:max", target := target, propertyKey := some propertyKey,
           value := Blocks.MetaValue.num n }] ∧
      Blocks.getOwnMetadata "pixi:min" target (some propertyKey)
        (Blocks.min n target propertyKey st) = some (Blocks.MetaValue.num n) ∧
      Blocks.getOwnMetadata "pixi:max" target (some propertyKey)
        (Blocks.max n target propertyKey st) = some (Blocks.MetaValue.num n) ∧
      (∀ (k : String) (t : τ) (p : Option String),
        ¬(k = "pixi:min" ∧ t = target ∧ p = some propertyKey) →
        Blocks.getOwnMetadata k t p (Blocks.min n target propertyKey st) =
          Blocks.getOwnMetadata k t p st) ∧
      (∀ (k : String) (t : τ) (p : Option String),
        ¬(k = "pixi:max" ∧ t = target ∧ p = some propertyKey) →
        Blocks.getOwnMetadata k t p (Blocks.max n target propertyKey st) =
          Blocks.getOwnMetadata k t p st) := by
  refine ⟨rfl, rfl, ?_, ?_, ?_, ?_⟩
  · exact getOwnMetadata_defineMetadata_self "pixi:min" (Blocks.MetaValue.num n)
      target (some propertyKey) st
  · exact getOwnMetadata_defineMetadata_self "pixi:max" (Blocks.MetaValue.num n)
      target (some propertyKey) st
  · intro k t p h
    exact getOwnMetadata_defineMetadata_other "pixi:min" (Blocks.MetaValue.num n)
      target (some propertyKey) k t p st h
  · intro k t p h
    exact getOwnMetadata_defineMetadata_other "pixi:max" (Blocks.MetaValue.num n)
      target (some propertyKey) k t p st h

/-- Claim C10: `resource(roleRequired, verb)` records under `pixi:resource` an
info object that defaults an absent `verb` to `"POST"` and an absent
`roleRequired` to the empty auth string `""`, and records given arguments
verbatim. -/
theorem resource_records_defaults_and_verbatim [DecidableEq τ]
    (ro : Option Blocks.RoleRequired) (vb : Option Blocks.ResourceVerb) (target : τ)
    (propertyKey : String) (st : Blocks.MetaStore τ μ ν) :
    Blocks.getOwnMetadata (μ := μ) (ν := ν) "pixi:resource" target (some propertyKey)
        (Blocks.resource ro vb target propertyKey st) =
      some (Blocks.MetaValue.resourceInfo
        (match ro with
         | none => ""
         | some r => r.str)
        (match vb with
         | none => "POST"
         | some v => v.str)) :=
  getOwnMetadata_defineMetadata_self "pixi:resource"
    (Blocks.MetaValue.resourceInfo
      (match ro with
       | none => ""
       | some r => r.str)
      (match vb with
       | none => "POST"
       | some v => v.str))
    target (some propertyKey) st

/-- A concrete stateful accessor over state `Nat`: reading returns the state,
writing `v` stores and returns `v`. -/
def gsEx : Blocks.GS Nat Nat := fun a s =>
  match a with
  | none => (s, s)
  | some v => (v, v)

/-- A facade whose `property` registration always raises. -/
def failBeh : Blocks.FacadeBehavior Unit String :=
  { propertyResult := fun _ _ => Except.error "facade failure"
    indexedPropertyResult := fun _ _ => () }

/-- A facade whose `property` registration always succeeds. -/
def okBeh : Blocks.FacadeBehavior Unit String :=
  { propertyResult := fun _ _ => Except.ok ()
    indexedPropertyResult := fun _ _ => () }

/-- A fresh script instance with no properties defined yet. -/
def instEx : Blocks.ScriptInstance Nat Nat Unit := { props := [] }

/-- Claim C1: for a non-read-only property, the installed setter invokes the
accessor (both to read the old value and with the written value), and makes
the facade `changed(name)` call exactly when the previously observed value
differs from the accessor's return value for the write — the comparison is
against `gsFunc(v)`, not against the literal input `v`. -/
theorem property_setter_notifies_iff_accessor_value_changed [DecidableEq α]
    (beh : Blocks.FacadeBehavior β ε) (inst : Blocks.ScriptInstance α σ L) (name : String)
    (options : Option Blocks.Opts) (gs : Blocks.GS α σ)
    (hro : Blocks.readOnlyRequested options = false)
    (hok : beh.propertyResult name options = Except.ok ()) :
    ∃ shim : Blocks.PropShim α σ L,
      (Blocks.propertyMethod beh inst name options gs).inst.props =
          inst.props ++ [(name, shim)] ∧
        shim.set = some (Blocks.setterBody gs name) ∧
        ∀ (v : α) (s : σ),
          Blocks.FCall.gsFunc (σ := σ) (L := L) (some v) ∈ (Blocks.setterBody gs name v s).2 ∧
            Blocks.FCall.gsFunc (σ := σ) (L := L) none ∈ (Blocks.setterBody gs name v s).2 ∧
            (Blocks.FCall.facadeChanged (α := α) (σ := σ) (L := L) name ∈
                (Blocks.setterBody gs name v s).2 ↔
              (gs none s).1 ≠ (gs (some v) (gs none s).2).1) := by
  refine ⟨{ get := Blocks.getterBody gs, set := some (Blocks.setterBody gs name) }, ?_, rfl, ?_⟩
  · simp [Blocks.propertyMethod, hok, hro]
  · intro v s
    refine ⟨by simp [Blocks.setterBody], by simp [Blocks.setterBody], ?_⟩
    by_cases h : (gs none s).1 = (gs (some v) (gs none s).2).1
    · simp [Blocks.setterBody, h]
    · simp [Blocks.setterBody, h]

/-- Witness for C1: a successful registration of a non-read-only property,
with a concrete accessor. -/
theorem property_setter_notifies_iff_accessor_value_changed_witness :
    ∃ shim : Blocks.PropShim Nat Nat Unit,
      (Blocks.propertyMethod okBeh instEx "volume" none gsEx).inst.props =
          instEx.props ++ [("volume", shim)] ∧
        shim.set = some (Blocks.setterBody gsEx "volume") ∧
        ∀ (v : Nat) (s : Nat),
          Blocks.FCall.gsFunc (σ := Nat) (L := Unit) (some v) ∈
              (Blocks.setterBody gsEx "volume" v s).2 ∧
            Blocks.FCall.gsFunc (σ := Nat) (L := Unit) none ∈
              (Blocks.setterBody gsEx "volume" v s).2 ∧
            (Blocks.FCall.facadeChanged (α := Nat) (σ := Nat) (L := Unit) "volume" ∈
                (Blocks.setterBody gsEx "volume" v s).2 ↔
              (gsEx none s).1 ≠ (gsEx (some v) (gsEx none s).2).1) :=
  property_setter_notifies_iff_accessor_value_changed okBeh instEx "volume" none gsEx rfl rfl

/-- Claim C4: `ScriptBase.property` makes the facade registration call first
(it is the head of the call sequence), and any `Object.defineProperty`
installation happens strictly after it. -/
theorem property_registers_facade_before_defineProp [DecidableEq α]
    (beh : Blocks.FacadeBehavior β ε) (inst : Blocks.ScriptInstance α σ L) (name : String)
    (options : Option Blocks.Opts) (gs : Blocks.GS α σ) :
    (Blocks.propertyMethod beh inst name options gs).calls.head? =
        some (Blocks.FCall.facadeProperty name options gs) ∧
      ∀ (k : Nat) (n : String) (hs : Bool),
        (Blocks.propertyMethod beh inst name options gs).calls[k]? =
          some (Blocks.FCall.defineProp n hs) → 0 < k := by
  cases hr : beh.propertyResult name options with
  | error e =>
    refine ⟨by simp [Blocks.propertyMethod, hr], ?_⟩
    intro k n hs hk
    match k with
    | 0 => simp [Blocks.propertyMethod, hr] at hk
    | k + 1 => exact Nat.succ_pos k
  | ok u =>
    cases hro : Blocks.readOnlyRequested options with
    | false =>
      refine ⟨by simp [Blocks.propertyMethod, hr, hro], ?_⟩
      intro k n hs hk
      match k with
      | 0 => simp [Blocks.propertyMethod, hr, hro] at hk
      | k + 1 => exact Nat.succ_pos k
    | true =>
      refine ⟨by simp [Blocks.propertyMethod, hr, hro], ?_⟩
      intro k n hs hk
      match k with
      | 0 => simp [Blocks.propertyMethod, hr, hro] at hk
      | k + 1 => exact Nat.succ_pos k

/-- Claim C8: when the facade's `property` call raises, the exception
propagates unchanged from `ScriptBase.property`, the instance is left
unchanged, and no property is defined (no `Object.defineProperty` call). -/
theorem property_facade_error_propagates [DecidableEq α]
    (beh : Blocks.FacadeBehavior β ε) (inst : Blocks.ScriptInstance α σ L) (name : String)
    (options : Option Blocks.Opts) (gs : Blocks.GS α σ) (e : ε)
    (herr : beh.propertyResult name options = Except.error e) :
    (Blocks.propertyMethod beh inst name options gs).outcome = Except.error e ∧
      (Blocks.propertyMethod beh inst name options gs).inst = inst ∧
      ∀ (n : String) (hs : Bool),
        Blocks.FCall.defineProp n hs ∉ (Blocks.propertyMethod beh inst name options gs).calls := by
  refine ⟨?_, ?_, ?_⟩ <;> simp [Blocks.propertyMethod, herr]

/-- Witness for C8: a facade that raises on registration. -/
theorem property_facade_error_propagates_witness :
    (Blocks.propertyMethod failBeh instEx "volume" none gsEx).outcome =
        Except.error "facade failure" ∧
      (Blocks.propertyMethod failBeh instEx "volume" none gsEx).inst = instEx ∧
      ∀ (n : String) (hs : Bool),
        Blocks.FCall.defineProp n hs ∉
          (Blocks.propertyMethod failBeh instEx "volume" none gsEx).calls :=
  property_facade_error_propagates failBeh instEx "volume" none gsEx "facade failure" rfl

/-- Claim C9: for a read-only property, only a getter is installed: the shim
has no setter, so an assignment through it makes no accessor call and no
facade `changed` call, and leaves the accessor state unchanged. -/
theorem property_readOnly_installs_getter_only [DecidableEq α]
    (beh : Blocks.FacadeBehavior β ε) (inst : Blocks.ScriptInstance α σ L) (name : String)
    (options : Option Blocks.Opts) (gs : Blocks.GS α σ)
    (hro : Blocks.readOnlyRequested options = true)
    (hok : beh.propertyResult name options = Except.ok ()) :
    ∃ shim : Blocks.PropShim α σ L,
      (Blocks.propertyMethod beh inst name options gs).inst.props =
          inst.props ++ [(name, shim)] ∧
        shim.set = none ∧
        ∀ (v : α) (s : σ),
          shim.assign v s = (s, []) ∧
            Blocks.FCall.gsFunc (some v) ∉ (shim.assign v s).2 ∧
            Blocks.FCall.facadeChanged name ∉ (shim.assign v s).2 := by
  refine ⟨{ get := Blocks.getterBody gs, set := none }, ?_, rfl, ?_⟩
  · simp [Blocks.propertyMethod, hok, hro]
  · intro v s
    refine ⟨rfl, ?_, ?_⟩ <;> simp [Blocks.PropShim.assign]

/-- Witness for C9: a successful registration with `readOnly: true`. -/
theorem property_readOnly_installs_getter_only_witness :
    ∃ shim : Blocks.PropShim Nat Nat Unit,
      (Blocks.propertyMethod okBeh instEx "volume" (some { readOnly := true }) gsEx).inst.props =
          instEx.props ++ [("volume", shim)] ∧
        shim.set = none ∧
        ∀ (v : Nat) (s : Nat),
          shim.assign v s = (s, []) ∧
            Blocks.FCall.gsFunc (some v) ∉ (shim.assign v s).2 ∧
            Blocks.FCall.facadeChanged "volume" ∉ (shim.assign v s).2 :=
  property_readOnly_installs_getter_only okBeh instEx "volume" (some { readOnly := true })
    gsEx rfl rfl

end Blocks
